import Mathlib

/-
Verification of the pass2bitwarden repository: a shallow embedding of the
naming-convention resolution and record-assembly pipeline of the three
export scripts (pass2bitwarden.py, passbankcards2bitwarden.py,
passnotes2bitwarden.py) and the shared helpers in pass_bitwarden/utils.py.

External effects are modelled explicitly:
- a gpg invocation is an oracle `PathM → RunResult` (returncode, stdout),
  mirroring `subprocess.run(["gpg", "--decrypt", "--batch", path])`;
- log output is a list of `LogEvent`s where a script's behaviour depends
  on what was reported;
- a Python exception escaping `main` is `Except.error`.

Python string operations are embedded as executable functions on the
character list of a `String` (Lean's built-in `String.splitOn` and friends
do not reduce in the kernel); each mirrors the CPython semantics of the
operation it is named after.
-/

/-- Python `str.split(sep)` scan with explicit fuel (one unit per examined
character suffices, the callers pass `length + 1`); `sep` is nonempty at
every call site, matching Python where `split("")` raises. -/
def pySplitFuel (sep : List Char) : Nat → List Char → List Char → List (List Char)
  | 0, l, acc => [acc.reverse ++ l]
  | fuel + 1, l, acc =>
    match l with
    | [] => [acc.reverse]
    | c :: rest =>
      if sep.isPrefixOf (c :: rest) then
        acc.reverse :: pySplitFuel sep fuel ((c :: rest).drop sep.length) []
      else
        pySplitFuel sep fuel rest (c :: acc)

/-- Python `s.split(sep)` for a nonempty separator. -/
def pySplit (s sep : String) : List String :=
  (pySplitFuel sep.data (s.data.length + 1) s.data []).map String.mk

/-- Python `s.replace(old, new)` for a nonempty `old`, with fuel as in
`pySplitFuel`. -/
def pyReplaceFuel (old new : List Char) : Nat → List Char → List Char
  | 0, l => l
  | _ + 1, [] => []
  | fuel + 1, c :: rest =>
    if old.isPrefixOf (c :: rest) then
      new ++ pyReplaceFuel old new fuel ((c :: rest).drop old.length)
    else
      c :: pyReplaceFuel old new fuel rest

/-- Python `s.replace(old, new)` for a nonempty `old`. -/
def pyReplace (s old new : String) : String :=
  String.mk (pyReplaceFuel old.data new.data (s.data.length + 1) s.data)

/-- Python `needle in haystack` for strings, via the split scan. -/
def strContains (s pat : String) : Bool :=
  (pySplit s pat).length != 1

/-- Python `s.startswith(pre)`. -/
def pyStartsWith (s pre : String) : Bool :=
  pre.data.isPrefixOf s.data

/-- Python `s.endswith(suf)`. -/
def pyEndsWith (s suf : String) : Bool :=
  suf.data.isSuffixOf s.data

/-- ASCII whitespace recognised by Python `str.strip()`. -/
def isPySpace (c : Char) : Bool :=
  c == ' ' || c == '\t' || c == '\n' || c == '\r' || c == '\x0b' || c == '\x0c'

/-- Python `s.strip()`: whitespace removed from both ends. -/
def pyStrip (s : String) : String :=
  String.mk (((s.data.dropWhile isPySpace).reverse.dropWhile isPySpace).reverse)

/-- Python `str.capitalize`: first character uppercased, the rest lowercased. -/
def pyCapitalize (s : String) : String :=
  match s.data with
  | [] => ""
  | c :: cs => String.mk (c.toUpper :: cs.map Char.toLower)

/-- Python `sep.join(parts)`. -/
def pyJoin (sep : String) : List String → String
  | [] => ""
  | a :: as => as.foldl (fun acc x => acc ++ sep ++ x) a

/-- Python `pathlib.PurePath.stem` computed from the file name: the name up
to its last dot, provided that dot is neither leading nor trailing. -/
def pyStem (name : String) : String :=
  let cs := name.data
  match cs.reverse.findIdx? (fun c => c == '.') with
  | none => name
  | some ri =>
    let i := cs.length - 1 - ri
    if 0 < i && i < cs.length - 1 then String.mk (cs.take i) else name

/-- Python `pathlib.PurePath.suffixes` computed from the file name: every
dot-delimited extension, each carrying its leading dot. -/
def pySuffixes (name : String) : List String :=
  if pyEndsWith name "." then []
  else
    let n := String.mk (name.data.dropWhile (fun c => c == '.'))
    ((pySplit n ".").drop 1).map (fun s => "." ++ s)

/-- The slice of a filesystem path the scripts inspect: the file (or
directory) name, the immediate parent directory name and the grandparent
directory name. -/
structure PathM where
  name : String
  parent : String
  grandparent : String
deriving DecidableEq, Repr

/-- Result of one external gpg invocation: exit status and captured stdout. -/
structure RunResult where
  returncode : Int
  stdout : String
deriving DecidableEq, Repr

/-- One logging call, tagged with its level. -/
inductive LogEvent where
  | info (msg : String)
  | error (msg : String)
deriving DecidableEq, Repr

/-- Whether a log event was emitted at error level. -/
def LogEvent.isErr : LogEvent → Bool
  | .info _ => false
  | .error _ => true

/-- passbankcards2bitwarden.py `determine_card_type`, kept with Python's
operator precedence: `a or b and c` parses as `a or (b and c)`, so the
length-15 guard binds only to the "37" alternative. -/
def determine_card_type (card_number : String) : String :=
  if pyStartsWith card_number "4" && (card_number.length == 13 || card_number.length == 16) then
    "Visa"
  else if pyStartsWith card_number "5" && card_number.length == 16 then
    "Mastercard"
  else if pyStartsWith card_number "34" || (pyStartsWith card_number "37" && card_number.length == 15) then
    "Amex"
  else
    ""

/-! ## pass2bitwarden.py: the login export script -/

/-- pass2bitwarden.py `short_name`: for a canonical password file the
grandparent/parent pair, otherwise parent/stem. -/
def short_name (filepath : PathM) : String :=
  if filepath.name == "password.gpg" || filepath.name == "passwd.gpg" then
    filepath.grandparent ++ "/" ++ filepath.parent
  else
    filepath.parent ++ "/" ++ pyStem filepath.name

/-- pass2bitwarden.py `decrypt_gpg_file`, with the gpg subprocess as an
oracle and the logging calls recorded. The wrapping try/except turns every
raised `ValueError` into an error log plus a `none` result. -/
def decrypt_gpg_file (gpg : PathM → RunResult) (filepath : PathM) :
    Option (PathM × String) × List LogEvent :=
  let sn := short_name filepath
  if strContains filepath.name "conflict" then
    (none, [.info ("Skipping syncthing-related conflict file -> " ++ sn ++ " ...")])
  else
    let l1 := LogEvent.info ("Decrypting GPG file -> " ++ sn ++ " ...")
    if (pySuffixes filepath.name).contains "pdf" then
      (none, [l1, .error ("Error while executing decrypt_gpg_file(" ++ sn ++ ") " ++
        "Can't process GPG-encrypted PDF file -> " ++ sn ++ " .")])
    else
      let result := gpg filepath
      if result.returncode != 0 then
        (none, [l1, .error ("Error while executing decrypt_gpg_file(" ++ sn ++ ") " ++
          "Failed to decrypt -> " ++ sn ++ " .")])
      else if result.stdout == "" then
        (none, [l1, .error ("Error while executing decrypt_gpg_file(" ++ sn ++ ") " ++
          "Empty decrypted content -> " ++ sn ++ " .")])
      else
        (some (filepath, result.stdout),
          [l1, .info ("OK Decrypted GPG file -> " ++ sn ++ " .")])

/-- The CSV row written for one login entry, one field per output column. -/
structure LoginRow where
  folder : String
  favorite : Nat
  type : String
  name : String
  notes : String
  fields : String
  reprompt : Nat
  login_uri : String
  login_username : String
  login_password : String
  login_totp : String
deriving DecidableEq, Repr

/-- pass2bitwarden.py `format_uri_fn` (local to `write_website_password`):
always reads the immediate parent directory name. -/
def format_uri_fn (path : PathM) : String :=
  let uri := path.parent
  if !(pyStartsWith uri "http") && !(pyStartsWith uri "https") then
    "https://" ++ uri
  else
    uri

/-- pass2bitwarden.py `get_parent_name` (local to `write_website_password`):
display name from the parent (or grandparent, for canonical password files),
with a trailing domain extension stripped before capitalizing. -/
def get_parent_name (path : PathM) : String :=
  let parent_name :=
    if path.name == "password.gpg" || path.name == "passwd.gpg" then
      path.grandparent
    else
      path.parent
  if !(strContains parent_name ".") then
    pyCapitalize parent_name
  else
    let parent_name_parts := pySplit parent_name "."
    pyCapitalize (pyJoin "." parent_name_parts.dropLast)

/-- pass2bitwarden.py `write_website_password`: assembles the CSV row for
one decrypted login entry. Custom fields are the lines after the first,
labelled `Field i` with `i` the zero-based `enumerate` index, the empty
lines filtered out after numbering. -/
def write_website_password (path : PathM) (password_text : String) (folder : String) :
    LoginRow :=
  let password_and_fields := pySplit password_text "\n"
  let password := password_and_fields.headD ""
  let fields0 :=
    if password_and_fields.length > 1 then password_and_fields.drop 1 else []
  let fields := pyJoin ","
    (((fields0.enum).filter (fun pr => pr.2 != "")).map
      (fun pr => "Field " ++ toString pr.1 ++ ": " ++ pr.2))
  let login_username :=
    if path.name == "password.gpg" || path.name == "passwd.gpg" then
      path.parent
    else
      pyStem path.name
  let login_uri0 :=
    if path.name == "password.gpg" || path.name == "passwd.gpg" then
      path.grandparent
    else
      path.parent
  let login_uri := if strContains login_uri0 "." then format_uri_fn path else ""
  { folder := folder
    favorite := 0
    type := "login"
    name := get_parent_name path
    notes := ""
    fields := fields
    reprompt := 0
    login_uri := login_uri
    login_username := login_username
    login_password := password
    login_totp := "" }

/-- The directory name filling the site-URI role of a login entry: the
grandparent for a canonical password file, the parent otherwise. This is
the value assigned to `login_uri` at lines 124-129 before normalization. -/
def uriRoleName (path : PathM) : String :=
  if path.name == "password.gpg" || path.name == "passwd.gpg" then
    path.grandparent
  else
    path.parent

/-- The decrypt pass of pass2bitwarden.py `main`: one decrypt per path, the
`None` results filtered out (lines 263-265). -/
def login_decrypted (gpg : PathM → RunResult) (paths : List PathM) :
    List (PathM × String) :=
  paths.filterMap (fun p => (decrypt_gpg_file gpg p).1)

/-- The rows pass2bitwarden.py `main` writes below the header: one per
successfully decrypted entry. -/
def loginRecords (gpg : PathM → RunResult) (folder : String) (paths : List PathM) :
    List LoginRow :=
  (login_decrypted gpg paths).map (fun pr => write_website_password pr.1 pr.2 folder)

/-- The source path of each emitted row, in emission order. -/
def loginRecordPaths (gpg : PathM → RunResult) (paths : List PathM) : List PathM :=
  (login_decrypted gpg paths).map Prod.fst

/-- The paths whose processing logged at error level: the reported failures
of a pass2bitwarden.py run. -/
def loginFailures (gpg : PathM → RunResult) (paths : List PathM) : List PathM :=
  paths.filter (fun p => (decrypt_gpg_file gpg p).2.any LogEvent.isErr)

/-- pass2bitwarden.py `main` after argument parsing: the output-path sanity
checks (lines 208-215) run before any decryption, then the rows are
produced. An uncaught `ValueError` is `Except.error`. -/
def loginMain (gpg : PathM → RunResult) (outputIsDir outputExists : Bool)
    (folder : String) (paths : List PathM) : Except String (List LoginRow) :=
  if outputIsDir then
    .error "ValueError: Output path is a directory, cannot proceed"
  else if outputExists then
    .error "ValueError: Output path already exists, cannot proceed"
  else
    .ok (loginRecords gpg folder paths)

/-! ## pass_bitwarden/utils.py: the shared decode helper -/

/-- pass_bitwarden/utils.py `decode_gpg_file` together with its
`catch_and_log_exception` decorator: the `ValueError`s raised on a non-zero
exit status or empty output are swallowed into `none`. -/
def decode_gpg_file (gpg : PathM → RunResult) (filepath : PathM) : Option String :=
  let result := gpg filepath
  if result.returncode != 0 then none
  else if result.stdout == "" then none
  else some result.stdout

/-! ## passbankcards2bitwarden.py: the bank-card export script -/

/-- One hidden custom field of a card record (name, value, type). -/
structure CardField where
  name : String
  value : String
  type : Nat
deriving DecidableEq, Repr

/-- The `card` sub-object of an exported bank-card item. -/
structure CardInfo where
  cardholderName : String
  number : String
  expMonth : String
  expYear : String
  code : String
  brand : String
deriving DecidableEq, Repr

/-- One exported bank-card item of the output JSON. -/
structure CardRecord where
  type : Nat
  reprompt : Nat
  name : String
  notes : Option String
  favorite : Bool
  fields : List CardField
  card : CardInfo
deriving DecidableEq, Repr

/-- A bank-card directory: its name and the names of the files inside it. -/
structure CardDir where
  name : String
  files : List String
deriving DecidableEq, Repr

/-- The path `dir_path / (fname ++ ".gpg")` of a card sibling file. -/
def cardFilePath (d : CardDir) (fname : String) : PathM :=
  ⟨fname ++ ".gpg", d.name, ""⟩

/-- The `_decode` closure of `export_bank_card`:
`decode_gpg_file(dir_path / f"{fname}.gpg").strip()`. `decode_gpg_file` is
decorated to return `None` on failure, so `.strip()` then raises an
`AttributeError` that `export_bank_card` does not catch. -/
def card_decode (gpg : PathM → RunResult) (d : CardDir) (fname : String) :
    Except String String :=
  match decode_gpg_file gpg (cardFilePath d fname) with
  | some s => .ok (pyStrip s)
  | none => .error "AttributeError: NoneType object has no attribute strip"

/-- passbankcards2bitwarden.py `export_bank_card`: decodes the sibling
files in source order and assembles the card item. Any raised exception
(decode failure, or the `MM/YY` unpack failing) propagates as
`Except.error` because nothing in the script catches it. -/
def export_bank_card (gpg : PathM → RunResult) (d : CardDir) :
    Except String CardRecord :=
  let card_name := pyCapitalize (pyReplace (pyReplace d.name "-" " ") "_" " ")
  match card_decode gpg d "number" with
  | .error e => .error e
  | .ok number =>
    match card_decode gpg d "ccv" with
    | .error e => .error e
    | .ok ccv =>
      match card_decode gpg d "date" with
      | .error e => .error e
      | .ok dateS =>
        match pySplit dateS "/" with
        | [month, year] =>
          match card_decode gpg d "name" with
          | .error e => .error e
          | .ok name =>
            match
              (if d.files.contains "pin.gpg" then
                (card_decode gpg d "pin").map (fun pin => [CardField.mk "pin" pin 1])
              else
                .ok []) with
            | .error e => .error e
            | .ok fields =>
              .ok { type := 3, reprompt := 0, name := card_name, notes := none,
                    favorite := false, fields := fields,
                    card := { cardholderName := name, number := number,
                              expMonth := month, expYear := year, code := ccv,
                              brand := determine_card_type number } }
        | _ => .error "ValueError: values to unpack do not number exactly two"

/-- The four sibling files whose presence the sanity loop of
passbankcards2bitwarden.py `main` demands. -/
def requiredCardFiles : List String :=
  ["number.gpg", "ccv.gpg", "date.gpg", "name.gpg"]

/-- Whether every input card directory passes the sanity loop of `main`
(lines 181-196): each of the four required files is present. -/
def cardSanityOk (dirs : List CardDir) : Bool :=
  dirs.all (fun d => requiredCardFiles.all (fun f => d.files.contains f))

/-- The export loop of passbankcards2bitwarden.py `main` (lines 199-202):
each card in order, an exception aborting the rest. -/
def card_export_loop (gpg : PathM → RunResult) : List CardDir → Except String (List CardRecord)
  | [] => .ok []
  | d :: rest =>
    match export_bank_card gpg d with
    | .error e => .error e
    | .ok r =>
      match card_export_loop gpg rest with
      | .error e => .error e
      | .ok rs => .ok (r :: rs)

/-- passbankcards2bitwarden.py `main` after argument parsing: the
`non_existing_file` output check (raised by argparse before `main` runs)
and the sibling-file sanity loop both precede every decode; the JSON is
written only when the loop finishes. -/
def cardMain (gpg : PathM → RunResult) (outputExists : Bool) (dirs : List CardDir) :
    Except String (List CardRecord) :=
  if outputExists then
    .error "ArgumentTypeError: Given path already exists"
  else if cardSanityOk dirs then
    card_export_loop gpg dirs
  else
    .error "ValueError: Given directory does not have a required file"

/-! ## passnotes2bitwarden.py: the notes export script -/

/-- One exported secure-note item of the output JSON. `notes` is the raw
decode result: `None` when decryption failed. -/
structure NoteRecord where
  type : Nat
  reprompt : Nat
  name : String
  notes : Option String
  secureNoteType : Nat
  favorite : Bool
  fields : List CardField
  card : Option CardInfo
deriving DecidableEq, Repr

/-- passnotes2bitwarden.py `export_note`: display name from the suffixless
file name with dot/dash/underscore replaced by spaces, body from the
decorated decode helper. The record is built unconditionally. -/
def export_note (gpg : PathM → RunResult) (note_path : PathM) : NoteRecord :=
  let name := pyCapitalize
    (pyReplace (pyReplace (pyReplace (pyStem note_path.name) "." " ") "-" " ") "_" " ")
  { type := 2, reprompt := 0, name := name,
    notes := decode_gpg_file gpg note_path,
    secureNoteType := 0, favorite := false, fields := [], card := none }

/-- passnotes2bitwarden.py `main` after argument parsing: the
`non_existing_file` output check precedes the export loop, which emits one
record per input file, flipping `reprompt` when the flag is set. -/
def noteMain (gpg : PathM → RunResult) (outputExists reprompt : Bool)
    (files : List PathM) : Except String (List NoteRecord) :=
  if outputExists then
    .error "ArgumentTypeError: Given path already exists"
  else
    .ok (files.map (fun p =>
      let r := export_note gpg p
      if reprompt then { r with reprompt := 1 } else r))

/-! ## Concrete inputs used by the counterexamples and witnesses -/

/-- Oracle for card exports: every file decrypts cleanly; the `date.gpg`
of the directory named `bad-card` yields an expiry without a slash. -/
def gpgCard : PathM → RunResult := fun p =>
  if p.parent == "bad-card" && p.name == "date.gpg" then ⟨0, "0427"⟩
  else if p.name == "date.gpg" then ⟨0, "04/27"⟩
  else if p.name == "number.gpg" then ⟨0, "4111111111111111"⟩
  else ⟨0, "x"⟩

/-- A card directory whose expiry decrypts to the slashless `0427`. -/
def cardBad : CardDir := ⟨"bad-card", requiredCardFiles⟩

/-- A fully well-formed card directory. -/
def cardGood : CardDir := ⟨"good-card", requiredCardFiles⟩

/-- A card directory with no `date.gpg` file. -/
def cardMissing : CardDir := ⟨"incomplete", ["number.gpg", "ccv.gpg", "name.gpg"]⟩

/-- Oracle on which every gpg invocation fails with exit status 2. -/
def gpgFailAll : PathM → RunResult := fun _ => ⟨2, ""⟩

/-- Oracle on which every invocation succeeds with a plaintext whose first
line is empty. -/
def gpgEmptyFirstLine : PathM → RunResult := fun _ => ⟨0, "\nextra"⟩

/-- An ordinary login entry path `root/example.com/alice@mail.com.gpg`. -/
def pathLoginEx : PathM := ⟨"alice@mail.com.gpg", "example.com", "root"⟩

/-- A canonical password file at `example.com/alice@mail.com/password.gpg`. -/
def pathCanonical : PathM := ⟨"password.gpg", "alice@mail.com", "example.com"⟩

/-- A login entry whose parent directory name starts with the characters
`http` without carrying any scheme separator. -/
def pathHttpName : PathM := ⟨"alice.gpg", "httpbin.org", "sites"⟩

/-- A note file `store/notes/recovery-codes.gpg`. -/
def pathNote : PathM := ⟨"recovery-codes.gpg", "notes", "store"⟩

/-- A login entry used with `gpgEmptyFirstLine`. -/
def pathLoginEmptyPw : PathM := ⟨"bob.gpg", "example.com", "r"⟩

/-- A plain login entry used in witnesses. -/
def pathLoginW : PathM := ⟨"carol.gpg", "mail.example.org", "r"⟩

/-- A syncthing conflict duplicate of a login entry. -/
def pathConflict : PathM := ⟨"site.conflict-20240101.gpg", "example.com", "r"⟩

/-- A conflict duplicate whose name also carries a `.pdf` suffix. -/
def pathPdfConflict : PathM := ⟨"doc.pdf.conflict.gpg", "docs", "store"⟩

/-! ## Claim theorems -/

/-- Claim C2 (code bug): brand detection is claimed to map a number
starting with `34` of length other than 15 to the unbranded string, and
the other prefix/length combinations to their brands. The code's Python
precedence slip makes any `34`-prefixed number Amex: at the failing input
`341` (length 3) the code returns `Amex` where the claim demands the empty
brand. The remaining branches behave as the claim states, including the
boundary lengths 12, 14 and 17. -/
theorem determine_card_type_34_ignores_length :
    determine_card_type "341" = "Amex" ∧
    pyStartsWith "341" "34" = true ∧ "341".length ≠ 15 ∧
    determine_card_type "4111111111111111" = "Visa" ∧
    determine_card_type "4111111111111" = "Visa" ∧
    determine_card_type "5105105105105100" = "Mastercard" ∧
    determine_card_type "378282246310005" = "Amex" ∧
    determine_card_type "37828224631000" = "" ∧
    determine_card_type "411111111111" = "" ∧
    determine_card_type "41111111111111" = "" ∧
    determine_card_type "41111111111111111" = "" ∧
    determine_card_type "51051051051051" = "" := by decide

/-- Claim C3 counterexample: the spec's own end-to-end scenario. The
decrypted content `"s3cret\nrecoverycode: 123"` yields the password
`s3cret`, uri and username as described, but the single custom field is
labelled `Field 0`, not `Field 1`: Python `enumerate` numbers the
subsequent lines from zero. -/
theorem field_numbering_counterexample :
    (write_website_password pathLoginEx "s3cret\nrecoverycode: 123" "").login_password = "s3cret" ∧
    (write_website_password pathLoginEx "s3cret\nrecoverycode: 123" "").login_uri = "https://example.com" ∧
    (write_website_password pathLoginEx "s3cret\nrecoverycode: 123" "").login_username = "alice@mail.com" ∧
    (write_website_password pathLoginEx "s3cret\nrecoverycode: 123" "").fields = "Field 0: recoverycode: 123" ∧
    (write_website_password pathLoginEx "s3cret\nrecoverycode: 123" "").fields ≠ "Field 1: recoverycode: 123" := by
  decide

/-- Claim C4 (code bug): for the canonical file name `password.gpg` the
username role is indeed the parent directory name, and `login_uri` is
first assigned the grandparent name; but when that grandparent contains a
dot the code replaces it with `format_uri_fn(path)`, which reads
`path.parent.name`. At `example.com/alice@mail.com/password.gpg` the
emitted URI is therefore `https://alice@mail.com`, not the
`https://example.com` the claim (and the surrounding assignment) intends. -/
theorem canonical_uri_clobbered_by_parent :
    (write_website_password pathCanonical "pw" "").login_username = "alice@mail.com" ∧
    (write_website_password pathCanonical "pw" "").login_uri = "https://alice@mail.com" ∧
    (write_website_password pathCanonical "pw" "").login_uri ≠ "https://example.com" := by
  decide

/-- Claim C5 counterexample: the directory name `httpbin.org` contains a
dot and carries no explicit scheme (no `://` separator), yet the emitted
`login_uri` is not prefixed with `https://`: the code's scheme test is a
plain `startswith("http")` character check. -/
theorem uri_scheme_heuristic_counterexample :
    strContains "httpbin.org" "." = true ∧
    strContains "httpbin.org" "://" = false ∧
    (write_website_password pathHttpName "pw" "").login_uri = "httpbin.org" ∧
    (write_website_password pathHttpName "pw" "").login_uri ≠ "https://httpbin.org" := by
  decide

/-- Claim C1 counterexample: a batch of two card directories in which the
first card's decrypted expiry `0427` does not split on `/` into two parts.
The unpacking `ValueError` propagates out of `export_bank_card` (nothing
catches it), so the whole run aborts with no records — the well-formed
second card is not exported, although the same card exported alone yields
a complete record. -/
theorem malformed_expiry_crashes_batch :
    cardMain gpgCard false [cardBad, cardGood] =
      Except.error "ValueError: values to unpack do not number exactly two" ∧
    cardMain gpgCard false [cardGood] =
      Except.ok [⟨3, 0, "Good card", none, false, [],
        ⟨"x", "4111111111111111", "04", "27", "x", "Visa"⟩⟩] :=
  ⟨rfl, rfl⟩

/-- Claim C6 counterexample: a note whose decryption fails (exit status 2)
is still emitted, with a `null` body — it is not dropped; and a login
entry whose decrypted first line is empty is emitted with an empty
password. Both contradict the claimed required-field invariant. -/
theorem required_field_invariant_counterexample :
    noteMain gpgFailAll false false [pathNote] =
      Except.ok [⟨2, 0, "Recovery codes", none, 0, false, [], none⟩] ∧
    (export_note gpgFailAll pathNote).notes = none ∧
    loginRecords gpgEmptyFirstLine "" [pathLoginEmptyPw] =
      [write_website_password pathLoginEmptyPw "\nextra" ""] ∧
    (write_website_password pathLoginEmptyPw "\nextra" "").login_password = "" :=
  ⟨rfl, rfl, rfl, rfl⟩

/-- Helper: a successful export loop means every directory in the batch
exported successfully. -/
theorem card_export_loop_ok_mem (gpg : PathM → RunResult) (dirs : List CardDir)
    (l : List CardRecord) (d : CardDir)
    (hok : card_export_loop gpg dirs = Except.ok l) (hd : d ∈ dirs) :
    ∃ r, export_bank_card gpg d = Except.ok r := by
  induction dirs generalizing l with
  | nil => cases hd
  | cons a rest ih =>
    unfold card_export_loop at hok
    cases ha : export_bank_card gpg a with
    | error e => rw [ha] at hok; cases hok
    | ok r =>
      rw [ha] at hok
      cases hrest : card_export_loop gpg rest with
      | error e => rw [hrest] at hok; cases hok
      | ok rs =>
        cases hd with
        | head => exact ⟨r, ha⟩
        | tail _ hmem => exact ih rs hrest hmem

/-- Helper: a card whose decoded expiry does not split on `/` into exactly
two parts can never export successfully. -/
theorem export_bank_card_bad_date (gpg : PathM → RunResult) (d : CardDir) (s : String)
    (hdate : decode_gpg_file gpg (cardFilePath d "date") = some s)
    (hsplit : (pySplit (pyStrip s) "/").length ≠ 2) :
    ∀ r, export_bank_card gpg d ≠ Except.ok r := by
  intro r h
  have hdec : card_decode gpg d "date" = Except.ok (pyStrip s) := by
    unfold card_decode; rw [hdate]
  unfold export_bank_card at h
  cases h1 : card_decode gpg d "number" with
  | error e => rw [h1] at h; simp at h
  | ok number =>
    rw [h1] at h
    cases h2 : card_decode gpg d "ccv" with
    | error e => rw [h2] at h; simp at h
    | ok ccv =>
      rw [h2, hdec] at h
      dsimp only at h
      rcases hx : pySplit (pyStrip s) "/" with _ | ⟨a, _ | ⟨b, _ | ⟨c, tl⟩⟩⟩
      · rw [hx] at h; simp at h
      · rw [hx] at h; simp at h
      · exact hsplit (by rw [hx]; rfl)
      · rw [hx] at h; simp at h

/-- Claim C1 (amended): a card directory whose decrypted expiry does not
split on `/` into exactly two parts makes the whole card export abort: the
unpack error propagates uncaught through the batch loop, so no record is
emitted for that card nor for any other card of the batch, and no output
is written. -/
theorem malformed_expiry_aborts_run (gpg : PathM → RunResult) (dirs : List CardDir)
    (d : CardDir) (s : String) (hd : d ∈ dirs)
    (hdate : decode_gpg_file gpg (cardFilePath d "date") = some s)
    (hsplit : (pySplit (pyStrip s) "/").length ≠ 2) :
    ∀ l, cardMain gpg false dirs ≠ Except.ok l := by
  intro l h
  unfold cardMain at h
  simp only [Bool.false_eq_true, if_false] at h
  by_cases hs : cardSanityOk dirs = true
  · rw [if_pos hs] at h
    obtain ⟨r, hr⟩ := card_export_loop_ok_mem gpg dirs l d h hd
    exact export_bank_card_bad_date gpg d s hdate hsplit r hr
  · rw [if_neg hs] at h; cases h

/-- Witness for `malformed_expiry_aborts_run`, at the concrete batch of
the C1 counterexample. -/
theorem malformed_expiry_aborts_run_witness :
    cardBad ∈ [cardBad, cardGood] ∧
    decode_gpg_file gpgCard (cardFilePath cardBad "date") = some "0427" ∧
    (pySplit (pyStrip "0427") "/").length ≠ 2 ∧
    ∀ l, cardMain gpgCard false [cardBad, cardGood] ≠ Except.ok l :=
  ⟨by decide, by decide, by decide,
    malformed_expiry_aborts_run gpgCard [cardBad, cardGood] cardBad "0427"
      (by decide) (by decide) (by decide)⟩

/-- Claim C3 (amended): the first line of the decrypted plaintext becomes
the password, and each subsequent non-empty line becomes a custom field
labelled `Field i` where `i` is the line's zero-based position among the
subsequent lines (numbering starts at 0 and empty lines consume indices);
the spec's example content therefore yields the single custom field
`Field 0: recoverycode: 123`. -/
theorem login_password_and_field_numbering (path : PathM) (folder text pw : String)
    (fs : List String) (hsplit : pySplit text "\n" = pw :: fs) :
    (write_website_password path text folder).login_password = pw ∧
    (write_website_password path text folder).fields =
      pyJoin "," (((fs.enum).filter (fun pr => pr.2 != "")).map
        (fun pr => "Field " ++ toString pr.1 ++ ": " ++ pr.2)) := by
  cases fs with
  | nil => simp [write_website_password, hsplit, pyJoin]
  | cons a as => simp [write_website_password, hsplit]

/-- Witness for `login_password_and_field_numbering` at the spec's own
end-to-end content. -/
theorem login_password_and_field_numbering_witness :
    pySplit "s3cret\nrecoverycode: 123" "\n" = ["s3cret", "recoverycode: 123"] ∧
    (write_website_password pathLoginW "s3cret\nrecoverycode: 123" "x").login_password = "s3cret" ∧
    (write_website_password pathLoginW "s3cret\nrecoverycode: 123" "x").fields =
      pyJoin "," (((["recoverycode: 123"].enum).filter (fun pr => pr.2 != "")).map
        (fun pr => "Field " ++ toString pr.1 ++ ": " ++ pr.2)) :=
  ⟨by decide,
   (login_password_and_field_numbering pathLoginW "x" "s3cret\nrecoverycode: 123"
      "s3cret" ["recoverycode: 123"] (by decide)).1,
   (login_password_and_field_numbering pathLoginW "x" "s3cret\nrecoverycode: 123"
      "s3cret" ["recoverycode: 123"] (by decide)).2⟩

/-- Claim C5 (amended): when the directory name filling the URI role (the
grandparent for a canonical password file, the parent otherwise) contains
no literal dot, the emitted `login_uri` is empty; when it contains a dot,
the emitted `login_uri` is built from the immediate parent directory name
(not from the URI-role name itself), prefixed with `https://` unless that
parent name already starts with the characters `http`. -/
theorem login_uri_normalization (path : PathM) (text folder : String) :
    (strContains (uriRoleName path) "." = false →
      (write_website_password path text folder).login_uri = "") ∧
    (strContains (uriRoleName path) "." = true →
      (write_website_password path text folder).login_uri =
        (if !(pyStartsWith path.parent "http") && !(pyStartsWith path.parent "https") then
          "https://" ++ path.parent
        else
          path.parent)) := by
  unfold write_website_password format_uri_fn uriRoleName
  constructor <;> intro h <;> simp only [h] <;> simp

/-- Witness for `login_uri_normalization` at a dotted parent directory. -/
theorem login_uri_normalization_witness :
    strContains (uriRoleName pathLoginW) "." = true ∧
    (write_website_password pathLoginW "pw" "").login_uri =
      (if !(pyStartsWith pathLoginW.parent "http") && !(pyStartsWith pathLoginW.parent "https") then
        "https://" ++ pathLoginW.parent
      else
        pathLoginW.parent) :=
  ⟨by decide, (login_uri_normalization pathLoginW "pw" "").2 (by decide)⟩

/-- Claim C6 (amended): records are never dropped for a missing required
field. Every note input yields exactly one emitted record whose body is
the raw decode result — `null` whenever decryption failed — and a login
record's password is the first decrypted line, which may be empty. -/
theorem records_emitted_not_dropped (gpg : PathM → RunResult) (rp : Bool)
    (files : List PathM) (p : PathM) (text folder : String) :
    (∃ l, noteMain gpg false rp files = Except.ok l ∧ l.length = files.length) ∧
    (export_note gpg p).notes = decode_gpg_file gpg p ∧
    ((gpg p).returncode ≠ 0 → (export_note gpg p).notes = none) ∧
    (write_website_password p text folder).login_password = (pySplit text "\n").headD "" := by
  refine ⟨⟨_, rfl, by simp [noteMain]⟩, rfl, ?_, rfl⟩
  intro h
  simp [export_note, decode_gpg_file, h]

/-- Witness for `records_emitted_not_dropped` at the failing oracle: the
note is emitted with a null body. -/
theorem records_emitted_not_dropped_witness :
    (gpgFailAll pathNote).returncode ≠ 0 ∧
    (export_note gpgFailAll pathNote).notes = none :=
  ⟨by decide, (records_emitted_not_dropped gpgFailAll false [] pathNote "" "").2.2.1 (by decide)⟩

/-- Claim C7: fatal misconfigurations abort the run before any decryption
happens. An output destination that is a directory or already exists makes
both `main`s raise during their sanity checks, and a card directory with a
required sibling file absent makes the card `main` raise in its sanity
loop. In every such case the result is the same fixed error for every gpg
oracle — no decryption outcome can influence it, so no decryption was
consulted — and no export record is produced. -/
theorem fatal_misconfig_aborts_before_decrypt :
    (∀ gpg dirs, cardMain gpg true dirs =
      Except.error "ArgumentTypeError: Given path already exists") ∧
    (∀ gpg dirs, cardSanityOk dirs = false →
      cardMain gpg false dirs =
        Except.error "ValueError: Given directory does not have a required file") ∧
    (∀ gpg oe folder paths, loginMain gpg true oe folder paths =
      Except.error "ValueError: Output path is a directory, cannot proceed") ∧
    (∀ gpg folder paths, loginMain gpg false true folder paths =
      Except.error "ValueError: Output path already exists, cannot proceed") := by
  refine ⟨fun _ _ => rfl, fun gpg dirs h => ?_, fun _ _ _ _ => rfl, fun _ _ _ => rfl⟩
  simp [cardMain, h]

/-- Witness for `fatal_misconfig_aborts_before_decrypt` at concrete
misconfigured runs. -/
theorem fatal_misconfig_witness :
    cardSanityOk [cardMissing] = false ∧
    cardMain gpgCard true [cardBad] =
      Except.error "ArgumentTypeError: Given path already exists" ∧
    cardMain gpgCard false [cardMissing] =
      Except.error "ValueError: Given directory does not have a required file" ∧
    loginMain gpgFailAll true false "" [pathNote] =
      Except.error "ValueError: Output path is a directory, cannot proceed" ∧
    loginMain gpgFailAll false true "" [pathNote] =
      Except.error "ValueError: Output path already exists, cannot proceed" :=
  ⟨by decide,
   fatal_misconfig_aborts_before_decrypt.1 gpgCard [cardBad],
   fatal_misconfig_aborts_before_decrypt.2.1 gpgCard [cardMissing] (by decide),
   fatal_misconfig_aborts_before_decrypt.2.2.1 gpgFailAll false "" [pathNote],
   fatal_misconfig_aborts_before_decrypt.2.2.2 gpgFailAll "" [pathNote]⟩

/-- Helper: the decrypt step on a conflict-named file short-circuits to
the skip result — for every oracle, since the check precedes the gpg
invocation. -/
theorem decrypt_conflict_eq (gpg : PathM → RunResult) (p : PathM)
    (hconf : strContains p.name "conflict" = true) :
    decrypt_gpg_file gpg p =
      (none, [LogEvent.info ("Skipping syncthing-related conflict file -> " ++
        short_name p ++ " ...")]) := by
  unfold decrypt_gpg_file
  rw [if_pos hconf]

/-- Helper: a successful decrypt result carries the path it was invoked
on. -/
theorem decrypt_gpg_file_fst_path (gpg : PathM → RunResult) (p : PathM)
    (x : PathM × String) (h : (decrypt_gpg_file gpg p).1 = some x) : x.1 = p := by
  unfold decrypt_gpg_file at h
  by_cases h1 : strContains p.name "conflict" = true
  · rw [if_pos h1] at h; simp at h
  · rw [if_neg h1] at h
    by_cases h2 : (pySuffixes p.name).contains "pdf" = true
    · rw [if_pos h2] at h; simp at h
    · rw [if_neg h2] at h
      by_cases h3 : ((gpg p).returncode != 0) = true
      · rw [if_pos h3] at h; simp at h
      · rw [if_neg h3] at h
        by_cases h4 : ((gpg p).stdout == "") = true
        · rw [if_pos h4] at h; simp at h
        · rw [if_neg h4] at h
          simp at h
          rw [← h]

/-- Claim C8: a file whose name contains the conflict marker yields the
skip outcome from the decrypt step for every gpg oracle (the external tool
is never consulted: the result is oracle-independent), it contributes no
emitted login record, and it is absent from the error-logged failure set —
a silent skip, distinct from a failure. -/
theorem conflict_skipped_silently (gpg : PathM → RunResult) (paths : List PathM)
    (p : PathM) (hconf : strContains p.name "conflict" = true) :
    (decrypt_gpg_file gpg p).1 = none ∧
    p ∉ loginRecordPaths gpg paths ∧
    p ∉ loginFailures gpg paths ∧
    (∀ gpg', decrypt_gpg_file gpg p = decrypt_gpg_file gpg' p) := by
  refine ⟨by rw [decrypt_conflict_eq gpg p hconf], ?_, ?_,
    fun gpg' => by rw [decrypt_conflict_eq gpg p hconf, decrypt_conflict_eq gpg' p hconf]⟩
  · intro hmem
    unfold loginRecordPaths login_decrypted at hmem
    rw [List.mem_map] at hmem
    obtain ⟨pr, hpr, hfst⟩ := hmem
    rw [List.mem_filterMap] at hpr
    obtain ⟨q, _, hdec⟩ := hpr
    have hqp : pr.1 = q := decrypt_gpg_file_fst_path gpg q pr hdec
    rw [hqp] at hfst
    rw [hfst, decrypt_conflict_eq gpg p hconf] at hdec
    simp at hdec
  · intro hmem
    unfold loginFailures at hmem
    rw [List.mem_filter] at hmem
    have := hmem.2
    rw [decrypt_conflict_eq gpg p hconf] at this
    simp [LogEvent.isErr] at this

/-- Witness for `conflict_skipped_silently` at a concrete conflict file in
a two-file batch. -/
theorem conflict_skipped_silently_witness :
    strContains pathConflict.name "conflict" = true ∧
    ((decrypt_gpg_file gpgEmptyFirstLine pathConflict).1 = none ∧
     pathConflict ∉ loginRecordPaths gpgEmptyFirstLine [pathConflict, pathLoginEmptyPw] ∧
     pathConflict ∉ loginFailures gpgEmptyFirstLine [pathConflict, pathLoginEmptyPw] ∧
     (∀ gpg', decrypt_gpg_file gpgEmptyFirstLine pathConflict =
       decrypt_gpg_file gpg' pathConflict)) :=
  ⟨by decide,
   conflict_skipped_silently gpgEmptyFirstLine [pathConflict, pathLoginEmptyPw]
     pathConflict (by decide)⟩

/-- Claim C9: in the decrypt step the conflict-duplicate check precedes
the unsupported-payload (pdf) check: every conflict-named path — whether
or not its suffixes include `.pdf` — returns the skip outcome with only an
info-level log, no error-level log, identically for every oracle. -/
theorem conflict_check_precedes_pdf_check (gpg : PathM → RunResult) (p : PathM)
    (hconf : strContains p.name "conflict" = true) :
    decrypt_gpg_file gpg p =
      (none, [LogEvent.info ("Skipping syncthing-related conflict file -> " ++
        short_name p ++ " ...")]) ∧
    (decrypt_gpg_file gpg p).2.any LogEvent.isErr = false ∧
    (∀ gpg', decrypt_gpg_file gpg p = decrypt_gpg_file gpg' p) := by
  refine ⟨decrypt_conflict_eq gpg p hconf, ?_,
    fun gpg' => by rw [decrypt_conflict_eq gpg p hconf, decrypt_conflict_eq gpg' p hconf]⟩
  rw [decrypt_conflict_eq gpg p hconf]
  simp [LogEvent.isErr]

/-- Witness for `conflict_check_precedes_pdf_check` at a conflict file
whose name also carries a `.pdf` suffix. -/
theorem conflict_check_precedes_pdf_check_witness :
    strContains pathPdfConflict.name "conflict" = true ∧
    ".pdf" ∈ pySuffixes pathPdfConflict.name ∧
    decrypt_gpg_file gpgFailAll pathPdfConflict =
      (none, [LogEvent.info ("Skipping syncthing-related conflict file -> " ++
        short_name pathPdfConflict ++ " ...")]) :=
  ⟨by decide, by decide,
   (conflict_check_precedes_pdf_check gpgFailAll pathPdfConflict (by decide)).1⟩

/-- Claim C10: the decrypt step is total on the embedding: for every path
and oracle it yields either `none` or `some (path, plaintext)` with a
non-empty plaintext, and both a non-zero exit status and empty output
yield `none`; mapping it over a batch therefore never aborts the batch. -/
theorem decrypt_gpg_file_total (gpg : PathM → RunResult) (p : PathM) :
    ((decrypt_gpg_file gpg p).1 = none ∨
      ∃ t, (decrypt_gpg_file gpg p).1 = some (p, t) ∧ t ≠ "") ∧
    ((gpg p).returncode ≠ 0 → (decrypt_gpg_file gpg p).1 = none) ∧
    ((gpg p).stdout = "" → (decrypt_gpg_file gpg p).1 = none) := by
  unfold decrypt_gpg_file
  by_cases h1 : strContains p.name "conflict" = true
  · rw [if_pos h1]; exact ⟨Or.inl rfl, fun _ => rfl, fun _ => rfl⟩
  · rw [if_neg h1]
    by_cases h2 : (pySuffixes p.name).contains "pdf" = true
    · rw [if_pos h2]; exact ⟨Or.inl rfl, fun _ => rfl, fun _ => rfl⟩
    · rw [if_neg h2]
      by_cases h3 : ((gpg p).returncode != 0) = true
      · rw [if_pos h3]; exact ⟨Or.inl rfl, fun _ => rfl, fun _ => rfl⟩
      · rw [if_neg h3]
        by_cases h4 : ((gpg p).stdout == "") = true
        · rw [if_pos h4]; exact ⟨Or.inl rfl, fun _ => rfl, fun _ => rfl⟩
        · rw [if_neg h4]
          refine ⟨Or.inr ⟨(gpg p).stdout, rfl, by simpa using h4⟩, ?_, ?_⟩
          · intro hrc
            exact absurd (by simpa using hrc) h3
          · intro hout
            exact absurd (by simpa using hout) h4

/-- Witness for `decrypt_gpg_file_total` at an oracle that fails with a
non-zero exit status. -/
theorem decrypt_gpg_file_total_witness :
    (gpgFailAll pathLoginEmptyPw).returncode ≠ 0 ∧
    (decrypt_gpg_file gpgFailAll pathLoginEmptyPw).1 = none :=
  ⟨by decide, (decrypt_gpg_file_total gpgFailAll pathLoginEmptyPw).2.1 (by decide)⟩
